import Mathlib

/-!
Verification of the lightstore ML detection server
(`src/ml/server/app/detector.py`, `src/ml/server/app/servicer.py`).

The Python code is shallowly embedded: Python dicts become association
lists with replace-or-append insertion, floats become rationals, the
opaque YOLO inference call becomes an oracle parameter, and the places
where the code can raise are driven by an explicit environment record.
The lock/interleaving structure of the code is embedded separately as
small labelled transition systems further below.
-/

/-! Section: Python dict model

A Python `dict[int, α]` is embedded as an association list.  Assignment
`d[k] = v` replaces the value of an existing key in place (keeping its
position) and otherwise appends the new entry, exactly like CPython's
insertion-ordered dicts. -/

/-- Lookup in the embedded dict: `d.get(k)` / `k in d`. -/
def dictGet {α : Type} : List (ℕ × α) → ℕ → Option α
  | [], _ => none
  | (k, v) :: rest, a => if a = k then some v else dictGet rest a

/-- Assignment `d[k] = v` on the embedded dict. -/
def dictInsert {α : Type} : List (ℕ × α) → ℕ → α → List (ℕ × α)
  | [], k, v => [(k, v)]
  | (k0, v0) :: rest, k, v =>
    if k0 = k then (k0, v) :: rest else (k0, v0) :: dictInsert rest k v

/-- The keys of an embedded dict, in insertion order. -/
def dictKeys {α : Type} (d : List (ℕ × α)) : List ℕ :=
  d.map Prod.fst

/-! Section: Data model (detector.py) -/

/-- The loaded model object produced by `YOLO(str(model_path))`: all the
embedding needs of it is its intrinsic class-id → name table
(`self._model.names`, detector.py line 258). -/
structure YOLOModel where
  names : List (ℕ × String)
  deriving DecidableEq

/-- Embedding of `ModelConfig` (config.py lines 21-36), restricted to the fields the
detection path reads. -/
structure ModelConfig where
  default_confidence : ℚ
  default_iou : ℚ
  input_size : ℕ
  deriving DecidableEq

/-- The Detector's shared mutable state (detector.py lines 104-110):
`self._model`, `self._model_version` (initially `"unknown"`), and
`self._class_mapping` mapping class_id to `(sku_id, class_name)`. -/
structure DetectorState where
  model : Option YOLOModel
  modelVersion : String
  classMapping : List (ℕ × String × String)
  deriving DecidableEq

/-- The fresh Detector state built by `Detector.__init__`
(detector.py lines 104-110). -/
def initDetectorState : DetectorState :=
  { model := none, modelVersion := "unknown", classMapping := [] }

/-- Property `Detector.model_loaded` (detector.py lines 112-116). -/
def Detector.model_loaded (s : DetectorState) : Bool :=
  s.model.isSome

/-- One raw detection as reported by the opaque inference capability
(`boxes.cls[i]`, `boxes.conf[i]`, `boxes.xyxy[i]`, detector.py
lines 243-248); coordinates are in pixels of the original image. -/
structure RawBox where
  cls : ℕ
  conf : ℚ
  x1 : ℚ
  y1 : ℚ
  x2 : ℚ
  y2 : ℚ
  deriving DecidableEq

/-- Embedding of `DetectionResult` (detector.py lines 20-30). -/
structure DetectionResult where
  class_id : ℕ
  class_name : String
  confidence : ℚ
  x1 : ℚ
  y1 : ℚ
  x2 : ℚ
  y2 : ℚ
  deriving DecidableEq

/-- Embedding of `InferenceResult` (detector.py lines 33-39), without the wall-clock
`inference_time_ms` field. -/
structure InferenceResult where
  detections : List DetectionResult
  model_version : String
  deriving DecidableEq

/-! Section: Load / reload (detector.py lines 131-162) -/

/-- Embedding of `Detector._compute_version` (detector.py lines 159-162):
integer seconds of the file's mtime formatted as `v<seconds>`. -/
def computeVersion (mtime : ℕ) : String :=
  "v" ++ toString mtime

/-- Environment for one `load_model` call, making explicit each point of
the source that consults the filesystem or can throw:
`model_path.exists()` (line 135), `YOLO(str(model_path))` (line 141,
`none` = deserialization throws), the warm-up `new_model.predict`
(line 145, `false` = throws), and the `model_path.stat()` inside
`_compute_version` (line 161, `none` = throws, e.g. the file was
deleted after the load). -/
structure LoadEnv where
  pathExists : Bool
  yoloLoad : Option YOLOModel
  warmupOk : Bool
  statMtime : Option ℕ
  deriving DecidableEq

/-- Embedding of `Detector.load_model` (detector.py lines 131-157).  Faithful control
flow: a missing path or a throw in `YOLO(...)` or in the warm-up returns
`False` with the state untouched; on the success path the code assigns
`self._model = new_model` (line 148) and only then computes the version
(line 149), so when `model_path.stat()` throws inside
`_compute_version` the exception is caught at line 155 and `False` is
returned, but the new model reference has already been installed while
`self._model_version` still holds the previous value. -/
def Detector.load_model (env : LoadEnv) (s : DetectorState) : Bool × DetectorState :=
  if env.pathExists = false then
    (false, s)
  else
    match env.yoloLoad with
    | none => (false, s)
    | some newModel =>
      if env.warmupOk = false then
        (false, s)
      else
        match env.statMtime with
        | none => (false, { s with model := some newModel })
        | some mt =>
          (true, { s with model := some newModel, modelVersion := computeVersion mt })

/-! Section: Class-name / sku resolution (detector.py lines 254-258,
servicer.py lines 58-61) -/

/-- The intrinsic-name lookup `self._model.names.get(class_id, ...)`
with its f-string default `class_<id>` (detector.py line 258). -/
def namesGetD (names : List (ℕ × String)) (cid : ℕ) : String :=
  match dictGet names cid with
  | some n => n
  | none => "class_" ++ toString cid

/-- Display-name resolution of one raw detection (detector.py
lines 254-258): the Class Mapping Overlay first, else the model's
intrinsic name table. -/
def resolveName (mapping : List (ℕ × String × String)) (names : List (ℕ × String))
    (cid : ℕ) : String :=
  match dictGet mapping cid with
  | some p => p.2
  | none => namesGetD names cid

/-- Sku (external-id) resolution of one detection (servicer.py
lines 58-61): the Class Mapping Overlay first, else the empty string. -/
def resolveSku (mapping : List (ℕ × String × String)) (cid : ℕ) : String :=
  match dictGet mapping cid with
  | some p => p.1
  | none => ""

/-! Section: Thresholds (servicer.py lines 45-47, detector.py lines 214-216) -/

/-- Python `x or default` on an optional float: `None` and `0.0` are
falsy, every other value (including negative ones) is returned as is
(detector.py lines 215-216). -/
def pyOrQ : Option ℚ → ℚ → ℚ
  | none, d => d
  | some v, d => if v = 0 then d else v

/-- servicer.py lines 46-47: a request threshold is forwarded only when
strictly positive, otherwise `None` is passed to the engine. -/
def servicerThreshold (v : ℚ) : Option ℚ :=
  if 0 < v then some v else none

/-- The pair of thresholds the engine hands to the opaque inference call
(detector.py lines 214-216). -/
def Detector.chooseThresholds (cfg : ModelConfig) (ct it : Option ℚ) : ℚ × ℚ :=
  (pyOrQ ct cfg.default_confidence, pyOrQ it cfg.default_iou)

/-! Section: Sequential detect path (detector.py lines 191-276) -/

/-- Embedding of `Detector.detect` (detector.py lines 191-276) in a quiescent (single
thread) setting: the opaque inference capability is the oracle `infer`
(thresholds ↦ raw boxes), the decoded image's original dimensions are
`origW`/`origH` (lines 219-224), boxes are normalized by them
(lines 248-252), names resolved per detection (lines 254-258), and the
result is tagged with `self._model_version` (line 275).  `none` embeds
the `RuntimeError("Model not loaded")` raise (lines 211-212). -/
def Detector.detect (s : DetectorState) (cfg : ModelConfig)
    (infer : ℚ → ℚ → List RawBox) (origW origH : ℚ)
    (ct it : Option ℚ) : Option InferenceResult :=
  match s.model with
  | none => none
  | some model =>
    let th := Detector.chooseThresholds cfg ct it
    let raw := infer th.1 th.2
    some
      { detections := raw.map (fun b =>
          { class_id := b.cls
            class_name := resolveName s.classMapping model.names b.cls
            confidence := b.conf
            x1 := b.x1 / origW
            y1 := b.y1 / origH
            x2 := b.x2 / origW
            y2 := b.y2 / origH })
        model_version := s.modelVersion }

/-- Embedding of `Detector.update_class_mapping` (detector.py lines 182-189):
wholesale replacement of the overlay. -/
def Detector.update_class_mapping (s : DetectorState)
    (mapping : List (ℕ × String × String)) : DetectorState :=
  { s with classMapping := mapping }

/-- The model-metadata dict returned by `Detector.get_model_info`
(detector.py lines 278-294). -/
structure ModelInfo where
  version : String
  architecture : String
  class_names : List String
  input_size : ℕ
  deriving DecidableEq

/-- Embedding of `Detector.get_model_info` (detector.py lines 278-294): a well-defined
sentinel when no model is loaded, otherwise the live metadata. -/
def Detector.get_model_info (s : DetectorState) (cfg : ModelConfig) : ModelInfo :=
  match s.model with
  | none =>
    { version := "none", architecture := "none", class_names := []
      input_size := cfg.input_size }
  | some m =>
    { version := s.modelVersion, architecture := "yolov8"
      class_names := m.names.map Prod.snd, input_size := cfg.input_size }

/-! Section: RPC servicer (servicer.py) -/

/-- The gRPC status codes the servicer uses. -/
inductive StatusCode
  | unavailable
  | internal
  deriving DecidableEq

/-- Wire detection `detection_pb2.Detection` as built in servicer.py lines 63-76. -/
structure WireDetection where
  class_name : String
  sku_id : String
  class_id : ℕ
  confidence : ℚ
  x1 : ℚ
  y1 : ℚ
  x2 : ℚ
  y2 : ℚ
  deriving DecidableEq

/-- Wire response `detection_pb2.DetectResponse` (servicer.py lines 83-88), without the
wall-clock and random-uuid fields. -/
structure DetectResponse where
  detections : List WireDetection
  model_version : String
  deriving DecidableEq

/-- Outcome of one RPC: a response, or a fault set on the context. -/
inductive GrpcOutcome
  | ok (resp : DetectResponse)
  | fault (code : StatusCode) (details : String)
  deriving DecidableEq

/-- Wire response `detection_pb2.HealthResponse` (servicer.py lines 114-119). -/
structure HealthResponse where
  healthy : Bool
  status : String
  model_loaded : Bool
  uptime_seconds : ℕ
  deriving DecidableEq

/-- Embedding of `DetectionServicer.Detect` (servicer.py lines 25-94) in a quiescent
setting: unloaded model → `UNAVAILABLE` fault (lines 39-42); thresholds
mapped through `servicerThreshold` (lines 46-47); the engine result's
detections are serialized with the sku looked up in the overlay
(lines 58-61). -/
def DetectionServicer.Detect (s : DetectorState) (cfg : ModelConfig)
    (infer : ℚ → ℚ → List RawBox) (origW origH : ℚ)
    (reqConf reqIou : ℚ) : GrpcOutcome :=
  if Detector.model_loaded s = false then
    GrpcOutcome.fault StatusCode.unavailable "Model not loaded"
  else
    match Detector.detect s cfg infer origW origH
        (servicerThreshold reqConf) (servicerThreshold reqIou) with
    | none => GrpcOutcome.fault StatusCode.internal "Model not loaded"
    | some result =>
      GrpcOutcome.ok
        { detections := result.detections.map (fun d =>
            { class_name := d.class_name
              sku_id := resolveSku s.classMapping d.class_id
              class_id := d.class_id
              confidence := d.confidence
              x1 := d.x1
              y1 := d.y1
              x2 := d.x2
              y2 := d.y2 })
          model_version := result.model_version }

/-- Embedding of `DetectionServicer.HealthCheck` (servicer.py lines 96-119). -/
def DetectionServicer.HealthCheck (s : DetectorState) (uptime : ℕ) : HealthResponse :=
  if Detector.model_loaded s then
    { healthy := true, status := "healthy", model_loaded := true
      uptime_seconds := uptime }
  else
    { healthy := false, status := "model_not_loaded", model_loaded := false
      uptime_seconds := uptime }

/-- One entry of a `SyncClassesRequest` (servicer.py lines 150-152). -/
structure ClassEntry where
  class_id : ℕ
  sku_id : String
  class_name : String
  deriving DecidableEq

/-- The dict built by the loop in `DetectionServicer.SyncClasses`
(servicer.py lines 150-152): `mapping[cls.class_id] = (cls.sku_id,
cls.class_name)` over the request entries in order. -/
def buildMapping (classes : List ClassEntry) : List (ℕ × String × String) :=
  classes.foldl (fun d c => dictInsert d c.class_id (c.sku_id, c.class_name)) []

/-- Embedding of `DetectionServicer.SyncClasses` (servicer.py lines 142-161): builds
the wholesale replacement mapping, installs it, and reports
`success=True` with `class_count = len(mapping)`. -/
def DetectionServicer.SyncClasses (s : DetectorState) (classes : List ClassEntry) :
    DetectorState × Bool × ℕ :=
  let mapping := buildMapping classes
  (Detector.update_class_mapping s mapping, true, mapping.length)

/-- The value of the last request entry whose `class_id` equals `k`
(the claim's "last triple wins"), phrased as a left fold over the
request in order. -/
def lastTripleValue (classes : List ClassEntry) (k : ℕ) : Option (String × String) :=
  classes.foldl
    (fun acc c => if c.class_id = k then some (c.sku_id, c.class_name) else acc) none

/-! Section: Hot-reload watcher (detector.py lines 42-98)

One iteration of `ModelWatcher._watch_loop` is a pure step on the
watcher's state, driven by the polled mtime (or `none` when the file is
missing) and by whether the reload callback throws. -/

/-- The watcher's mutable state: `self._last_mtime`, plus counters for
how often the reload callback has been invoked (line 96) and how often a
callback error was logged (line 98). -/
structure WatchState where
  lastMtime : Option ℕ
  fires : ℕ
  errorsLogged : ℕ
  deriving DecidableEq

/-- One iteration of `_watch_loop` (detector.py lines 85-98): a missing
file is "no change" (lines 89-90); when the current mtime is strictly
greater than the last observed one, or none was ever observed, the new
mtime is recorded (line 94) and the callback invoked (line 96), its
exception — if any — merely logged (lines 97-98). -/
def watchPoll (s : WatchState) (current : Option ℕ) (cbThrows : Bool) : WatchState :=
  match current with
  | none => s
  | some m =>
    let trigger : Bool :=
      match s.lastMtime with
      | none => true
      | some l => decide (l < m)
    if trigger then
      { lastMtime := some m
        fires := s.fires + 1
        errorsLogged := s.errorsLogged + (if cbThrows then 1 else 0) }
    else
      s

/-- A run of the watch loop over a list of polls, each poll a pair of
the observed mtime and whether the callback would throw. -/
def watchRun : WatchState → List (Option ℕ × Bool) → WatchState
  | s, [] => s
  | s, p :: ps => watchRun (watchPoll s p.1 p.2) ps

/-! Section: Lock-level interleaving of detect and reload (detector.py)

Here `Detector.detect` executes its whole body — image decode, inference,
name resolution and the version read — inside `with self._model_lock:`
(detector.py line 210), while `Detector.load_model` runs `YOLO(...)`
and the warm-up outside the lock and takes it only for the install
(lines 141-149).  The transition system below embeds exactly this
lock footprint for a pair of threads. -/

/-- The named in-body actions of the two operations. -/
inductive LockTag
  | decode
  | infer
  | resolve
  | readVersion
  | build
  | warmup
  | install
  deriving DecidableEq

/-- An atomic step of a thread: take the engine lock, release it, or do
some work (which needs no lock of its own). -/
inductive LInstr
  | acquire
  | release
  | work (tag : LockTag)
  deriving DecidableEq

/-- The lock footprint of `Detector.detect` (detector.py lines 210-276):
the entire body runs between acquiring and releasing `_model_lock`. -/
def detectProg : List LInstr :=
  [LInstr.acquire, LInstr.work LockTag.decode, LInstr.work LockTag.infer,
   LInstr.work LockTag.resolve, LInstr.work LockTag.readVersion, LInstr.release]

/-- The lock footprint of `Detector.load_model` (detector.py
lines 139-149): deserialization and warm-up run without the lock, only
the install of the new model and version takes it. -/
def reloadProg : List LInstr :=
  [LInstr.work LockTag.build, LInstr.work LockTag.warmup,
   LInstr.acquire, LInstr.work LockTag.install, LInstr.release]

/-- A two-thread system sharing the single `_model_lock`: the owner (if
any) and each thread's remaining program. -/
structure LockSys where
  owner : Option ℕ
  th0 : List LInstr
  th1 : List LInstr
  deriving DecidableEq

/-- One scheduler step: thread `t` executes its next instruction.
`none` means the step cannot be taken — scheduling a finished thread,
or trying to acquire a lock someone else holds (i.e. the thread
blocks). -/
def lstep (sys : LockSys) (t : ℕ) : Option LockSys :=
  if t = 0 then
    match sys.th0 with
    | [] => none
    | LInstr.acquire :: rest =>
      match sys.owner with
      | none => some { sys with owner := some 0, th0 := rest }
      | some _ => none
    | LInstr.release :: rest =>
      if sys.owner = some 0 then some { sys with owner := none, th0 := rest } else none
    | LInstr.work _ :: rest => some { sys with th0 := rest }
  else if t = 1 then
    match sys.th1 with
    | [] => none
    | LInstr.acquire :: rest =>
      match sys.owner with
      | none => some { sys with owner := some 1, th1 := rest }
      | some _ => none
    | LInstr.release :: rest =>
      if sys.owner = some 1 then some { sys with owner := none, th1 := rest } else none
    | LInstr.work _ :: rest => some { sys with th1 := rest }
  else none

/-- Run a schedule (a list of thread ids); `none` as soon as a scheduled
step blocks. -/
def lrun (sys : LockSys) : List ℕ → Option LockSys
  | [] => some sys
  | t :: ts =>
    match lstep sys t with
    | none => none
    | some sys' => lrun sys' ts

/-- A thread whose remaining program reaches a `release` before any
`acquire` is currently inside its locked section. -/
def holding : List LInstr → Bool
  | [] => false
  | LInstr.acquire :: _ => false
  | LInstr.release :: _ => true
  | LInstr.work _ :: rest => holding rest

/-- All suffixes of a list (the possible remaining programs of a thread
started on it). -/
def listSuffixes {α : Type} : List α → List (List α)
  | [] => [[]]
  | a :: l => (a :: l) :: listSuffixes l

/-- Two concurrent `detect` calls contending for `_model_lock`. -/
def twoDetectSys : LockSys :=
  { owner := none, th0 := detectProg, th1 := detectProg }

/-- A `detect` call concurrent with a `load_model` call. -/
def detectReloadSys : LockSys :=
  { owner := none, th0 := detectProg, th1 := reloadProg }

/-- Invariant of the two-detect system: each thread's remaining program
is a suffix of `detectProg`, and a thread inside its locked section is
the lock owner. -/
def DInv (sys : LockSys) : Prop :=
  sys.th0 ∈ listSuffixes detectProg ∧ sys.th1 ∈ listSuffixes detectProg ∧
  (holding sys.th0 = true → sys.owner = some 0) ∧
  (holding sys.th1 = true → sys.owner = some 1)

/-- The state of the two-detect system right after thread 0 acquired the
lock (i.e. after schedule `[0]`). -/
def twoDetectAfter0 : LockSys :=
  { owner := some 0
    th0 := [LInstr.work LockTag.decode, LInstr.work LockTag.infer,
            LInstr.work LockTag.resolve, LInstr.work LockTag.readVersion, LInstr.release]
    th1 := detectProg }

/-- A schedule of `detectReloadSys` in which the reload's
deserialization and warm-up (thread 1) happen while the detect call
(thread 0) is inside its locked section, and the install takes the lock
only after the detect released it. -/
def buildOverlapSched : List ℕ :=
  [0, 1, 1, 0, 0, 0, 0, 0, 1, 1, 1]

/-! Section: Interleaving of the overlay reads with `update_class_mapping`

Here `Detector.detect` reads `self._class_mapping` once per detection
(detector.py lines 254-258), `DetectionServicer.Detect` reads it again
per detection for the sku (servicer.py lines 58-61), and
`Detector.update_class_mapping` replaces the reference without taking
any lock (detector.py line 188).  The system below embeds those shared
reads and writes for a pair of threads, logging each resolved value. -/

/-- An atomic access to the shared overlay reference. -/
inductive MInstr
  | readName (cid : ℕ)
  | readSku (cid : ℕ)
  | setMapping (d : List (ℕ × String × String))
  deriving DecidableEq

/-- The shared state: the overlay reference, the (immutable) intrinsic
name table of the current model, and the logs of the values resolved so
far for the response under construction. -/
structure MapShared where
  mapping : List (ℕ × String × String)
  model : List (ℕ × String)
  nameLog : List (ℕ × String)
  skuLog : List (ℕ × String)
  deriving DecidableEq

/-- Effect of one access on the shared state: name and sku reads resolve
against the overlay reference as it is at that instant. -/
def mexec (sh : MapShared) : MInstr → MapShared
  | MInstr.readName cid =>
    { sh with nameLog := sh.nameLog ++ [(cid, resolveName sh.mapping sh.model cid)] }
  | MInstr.readSku cid =>
    { sh with skuLog := sh.skuLog ++ [(cid, resolveSku sh.mapping cid)] }
  | MInstr.setMapping d => { sh with mapping := d }

/-- A two-thread system over the shared overlay. -/
structure MapSys where
  sh : MapShared
  th0 : List MInstr
  th1 : List MInstr
  deriving DecidableEq

/-- One scheduler step of the overlay system (no instruction blocks;
only scheduling a finished thread is inadmissible). -/
def mstep (sys : MapSys) (t : ℕ) : Option MapSys :=
  if t = 0 then
    match sys.th0 with
    | [] => none
    | i :: rest => some { sys with sh := mexec sys.sh i, th0 := rest }
  else if t = 1 then
    match sys.th1 with
    | [] => none
    | i :: rest => some { sys with sh := mexec sys.sh i, th1 := rest }
  else none

/-- Run a schedule of the overlay system. -/
def mrun (sys : MapSys) : List ℕ → Option MapSys
  | [] => some sys
  | t :: ts =>
    match mstep sys t with
    | none => none
    | some sys' => mrun sys' ts

/-- Returns `true` when a program performs no overlay replacement. -/
def noSet (p : List MInstr) : Bool :=
  p.all (fun i => match i with | MInstr.setMapping _ => false | _ => true)

/-- All values logged so far were resolved from the current overlay
reference (one consistent snapshot). -/
def logsConsistent (sh : MapShared) : Prop :=
  (∀ e ∈ sh.nameLog, e.2 = resolveName sh.mapping sh.model e.1) ∧
  (∀ e ∈ sh.skuLog, e.2 = resolveSku sh.mapping e.1)

/-! Section: Concrete scenarios

Closed instances of the embeddings above, used to evaluate the code on
explicit inputs. -/

/-- A configuration with the defaults of config.py lines 30-32. -/
def cfgStd : ModelConfig :=
  { default_confidence := 1/2, default_iou := 45/100, input_size := 640 }

/-- A first model artifact whose intrinsic table names class 0 `cola`. -/
def yoloCola : YOLOModel :=
  { names := [(0, "cola")] }

/-- A replacement artifact whose intrinsic table names class 0 `pepsi`. -/
def yoloPepsi : YOLOModel :=
  { names := [(0, "pepsi")] }

/-- A fully successful initial load of `yoloCola` at mtime 100. -/
def envOk100 : LoadEnv :=
  { pathExists := true, yoloLoad := some yoloCola, warmupOk := true, statMtime := some 100 }

/-- A reload of `yoloPepsi` in which the model file disappears between
the warm-up and the `model_path.stat()` of `_compute_version`
(detector.py line 161), so the version computation throws. -/
def envStatThrow : LoadEnv :=
  { pathExists := true, yoloLoad := some yoloPepsi, warmupOk := true, statMtime := none }

/-- A reload against a missing path (detector.py line 135). -/
def envMissing : LoadEnv :=
  { pathExists := false, yoloLoad := none, warmupOk := true, statMtime := none }

/-- A reload in which `YOLO(str(model_path))` throws (corrupt artifact,
detector.py line 141). -/
def envYoloThrow : LoadEnv :=
  { pathExists := true, yoloLoad := none, warmupOk := true, statMtime := none }

/-- A reload in which the warm-up inference throws (detector.py
line 145). -/
def envWarmupThrow : LoadEnv :=
  { pathExists := true, yoloLoad := some yoloPepsi, warmupOk := false, statMtime := none }

/-- Detector state after the successful initial load of `yoloCola`. -/
def c2s1 : DetectorState :=
  (Detector.load_model envOk100 initDetectorState).2

/-- Detector state after the subsequent reload whose version computation
threw. -/
def c2s2 : DetectorState :=
  (Detector.load_model envStatThrow c2s1).2

/-- An inference oracle reporting one box of class 0. -/
def c2infer : ℚ → ℚ → List RawBox :=
  fun _ _ => [{ cls := 0, conf := 95/100, x1 := 10, y1 := 10, x2 := 20, y2 := 20 }]

/-- Intrinsic name table for the overlay-resolution scenario. -/
def c5model : YOLOModel :=
  { names := [(0, "cola"), (1, "sprite")] }

/-- Detector state with `c5model` loaded and an overlay covering only
class 1. -/
def c5state : DetectorState :=
  { model := some c5model, modelVersion := "v100"
    classMapping := [(1, ("sku-1", "Overlay"))] }

/-- An inference oracle reporting one box of class 0 (absent from the
overlay) and one of class 1 (present in it). -/
def c5infer : ℚ → ℚ → List RawBox :=
  fun _ _ =>
    [{ cls := 0, conf := 95/100, x1 := 0, y1 := 0, x2 := 50, y2 := 50 },
     { cls := 1, conf := 9/10, x1 := 0, y1 := 0, x2 := 50, y2 := 50 }]

/-- The wire detection produced for the class-0 box of `c5infer` on a
1-by-1 original image. -/
def c5wire0 : WireDetection :=
  { class_name := "cola", sku_id := "", class_id := 0, confidence := 95/100
    x1 := 0, y1 := 0, x2 := 50, y2 := 50 }

/-- The wire detection produced for the class-1 box of `c5infer` on a
1-by-1 original image. -/
def c5wire1 : WireDetection :=
  { class_name := "Overlay", sku_id := "sku-1", class_id := 1, confidence := 9/10
    x1 := 0, y1 := 0, x2 := 50, y2 := 50 }

/-- The response `DetectionServicer.Detect` produces in the
overlay-resolution scenario. -/
def c5resp : DetectResponse :=
  { detections := [c5wire0, c5wire1], model_version := "v100" }

/-- The overlay value before the concurrent update: class 0 is mapped to
sku `sku-old` with display name `Old`. -/
def c4old : List (ℕ × String × String) :=
  [(0, ("sku-old", "Old"))]

/-- The overlay value installed by the concurrent
`update_class_mapping`. -/
def c4new : List (ℕ × String × String) :=
  [(0, ("sku-new", "New"))]

/-- Intrinsic name table of the model used in the overlay-race
scenario. -/
def c4model : List (ℕ × String) :=
  [(0, "cola")]

/-- A Detect RPC (thread 0) resolving one detection's display name and
then its sku, racing an `update_class_mapping` (thread 1). -/
def c4sys : MapSys :=
  { sh := { mapping := c4old, model := c4model, nameLog := [], skuLog := [] }
    th0 := [MInstr.readName 0, MInstr.readSku 0]
    th1 := [MInstr.setMapping c4new] }

/-- The same Detect RPC with no concurrent update at all. -/
def c4wSys : MapSys :=
  { sh := { mapping := c4old, model := c4model, nameLog := [], skuLog := [] }
    th0 := [MInstr.readName 0, MInstr.readSku 0]
    th1 := [] }

/-- Final state of `c4wSys` after the schedule `[0, 0]`. -/
def c4wFinal : MapSys :=
  { sh := { mapping := c4old, model := c4model
            nameLog := [(0, "Old")], skuLog := [(0, "sku-old")] }
    th0 := []
    th1 := [] }

/-! Section: Helper lemmas about the dict model -/

/-- Lookup after assignment: the assigned key reads the new value,
every other key is unaffected. -/
theorem dictGet_insert {α : Type} (d : List (ℕ × α)) (k : ℕ) (v : α) (a : ℕ) :
    dictGet (dictInsert d k v) a = if a = k then some v else dictGet d a := by
  induction d with
  | nil =>
    by_cases h : a = k <;> simp [dictInsert, dictGet, h]
  | cons p rest ih =>
    obtain ⟨k0, v0⟩ := p
    by_cases hk : k0 = k
    · subst hk
      by_cases ha : a = k0 <;> simp [dictInsert, dictGet, ha]
    · by_cases ha : a = k0
      · have hak : ¬ a = k := by
          intro h
          rw [ha] at h
          exact hk h
        simp [dictInsert, hk, dictGet, ha, hak]
      · simp [dictInsert, hk, dictGet, ha, ih]

/-- Keys after assignment: unchanged if the key was present, appended
otherwise. -/
theorem dictKeys_insert {α : Type} (d : List (ℕ × α)) (k : ℕ) (v : α) :
    dictKeys (dictInsert d k v)
      = if k ∈ dictKeys d then dictKeys d else dictKeys d ++ [k] := by
  induction d with
  | nil => simp [dictInsert, dictKeys]
  | cons p rest ih =>
    obtain ⟨k0, v0⟩ := p
    by_cases hk : k0 = k
    · subst hk
      simp [dictInsert, dictKeys]
    · have hne : ¬ k = k0 := fun h => hk h.symm
      simp only [dictInsert, if_neg hk, dictKeys, List.map_cons]
      simp only [dictKeys] at ih
      rw [ih]
      by_cases hm : k ∈ List.map Prod.fst rest
      · simp [List.mem_cons, hne, hm]
      · simp [List.mem_cons, hne, hm]

/-- Membership in the keys after assignment. -/
theorem mem_dictKeys_insert {α : Type} (d : List (ℕ × α)) (k : ℕ) (v : α) (a : ℕ) :
    a ∈ dictKeys (dictInsert d k v) ↔ a ∈ dictKeys d ∨ a = k := by
  rw [dictKeys_insert]
  by_cases hm : k ∈ dictKeys d
  · simp only [if_pos hm]
    constructor
    · exact fun h => Or.inl h
    · rintro (h | h)
      · exact h
      · rw [h]; exact hm
  · simp [if_neg hm]

/-- Assignment preserves distinctness of the keys. -/
theorem nodup_dictKeys_insert {α : Type} (d : List (ℕ × α)) (k : ℕ) (v : α)
    (h : (dictKeys d).Nodup) : (dictKeys (dictInsert d k v)).Nodup := by
  rw [dictKeys_insert]
  by_cases hm : k ∈ dictKeys d
  · simpa [if_pos hm] using h
  · rw [if_neg hm]
    rw [List.nodup_append]
    exact ⟨h, List.nodup_singleton k, by simpa [List.disjoint_singleton] using hm⟩

/-- The length of a dict with distinct keys equals the cardinality of
its key set. -/
theorem dict_length_eq_card {α : Type} (d : List (ℕ × α))
    (h : (dictKeys d).Nodup) : d.length = (dictKeys d).toFinset.card := by
  have hlen : (dictKeys d).length = d.length := List.length_map d Prod.fst
  rw [← hlen, List.toFinset_card_of_nodup h]

/-- Lookup in the dict built by the `SyncClasses` loop, generalized over
the starting dict: a left fold selecting the last matching entry. -/
theorem dictGet_syncFold (classes : List ClassEntry) (d : List (ℕ × String × String))
    (k : ℕ) :
    dictGet (classes.foldl
        (fun d c => dictInsert d c.class_id (c.sku_id, c.class_name)) d) k
      = classes.foldl
          (fun acc c => if c.class_id = k then some (c.sku_id, c.class_name) else acc)
          (dictGet d k) := by
  induction classes generalizing d with
  | nil => rfl
  | cons c cs ih =>
    simp only [List.foldl_cons]
    rw [ih]
    rw [dictGet_insert]
    by_cases h : k = c.class_id
    · simp [h]
    · have h2 : ¬ c.class_id = k := fun hh => h hh.symm
      simp [h, h2]

/-- Key membership in the dict built by the `SyncClasses` loop,
generalized over the starting dict. -/
theorem mem_dictKeys_syncFold (classes : List ClassEntry)
    (d : List (ℕ × String × String)) (a : ℕ) :
    a ∈ dictKeys (classes.foldl
        (fun d c => dictInsert d c.class_id (c.sku_id, c.class_name)) d)
      ↔ a ∈ dictKeys d ∨ a ∈ classes.map (fun c => c.class_id) := by
  induction classes generalizing d with
  | nil => simp
  | cons c cs ih =>
    simp only [List.foldl_cons]
    rw [ih, mem_dictKeys_insert]
    simp [List.mem_cons]
    tauto

/-- The `SyncClasses` loop preserves distinctness of the keys. -/
theorem nodup_dictKeys_syncFold (classes : List ClassEntry)
    (d : List (ℕ × String × String)) (h : (dictKeys d).Nodup) :
    (dictKeys (classes.foldl
        (fun d c => dictInsert d c.class_id (c.sku_id, c.class_name)) d)).Nodup := by
  induction classes generalizing d with
  | nil => exact h
  | cons c cs ih =>
    simp only [List.foldl_cons]
    exact ih _ (nodup_dictKeys_insert _ _ _ h)

/-- The size of the built mapping is the number of distinct class-ids in
the request. -/
theorem length_buildMapping (classes : List ClassEntry) :
    (buildMapping classes).length
      = (classes.map (fun c => c.class_id)).toFinset.card := by
  have hnd : (dictKeys (buildMapping classes)).Nodup :=
    nodup_dictKeys_syncFold classes [] (by simp [dictKeys])
  rw [dict_length_eq_card _ hnd]
  congr 1
  ext a
  simp only [List.mem_toFinset]
  rw [buildMapping, mem_dictKeys_syncFold]
  simp [dictKeys]

/-! Section: Helper lemmas about the watcher -/

/-- A poll that observes the already-recorded mtime, or a missing file,
leaves the watcher state untouched. -/
theorem watchPoll_stable (s : WatchState) (m : ℕ) (b : Bool) (p : Option ℕ)
    (h : s.lastMtime = some m) (hp : p = none ∨ p = some m) :
    watchPoll s p b = s := by
  rcases hp with hp | hp <;> subst hp
  · rfl
  · have hlt : decide (m < m) = false := by simp
    simp [watchPoll, h, hlt]

/-- A whole run of such polls leaves the watcher state untouched. -/
theorem watchRun_stable (s : WatchState) (m : ℕ)
    (polls : List (Option ℕ × Bool)) (h : s.lastMtime = some m)
    (hp : ∀ p ∈ polls, p.1 = none ∨ p.1 = some m) :
    watchRun s polls = s := by
  induction polls with
  | nil => rfl
  | cons p ps ih =>
    have h1 : watchPoll s p.1 p.2 = s :=
      watchPoll_stable s m p.2 p.1 h (hp p (List.mem_cons_self p ps))
    rw [watchRun, h1]
    exact ih (fun q hq => hp q (List.mem_cons_of_mem p hq))

/-! Section: Claim C6 — watcher fires once per modification -/

/-- C6: when a poll observes an mtime strictly greater than every
previously observed one (or none was ever observed), the watcher
invokes the reload callback exactly once and records the new mtime —
independently of whether the callback throws — and further polls that
see the unchanged file (or a missing file) invoke no further callback
and change nothing, again independently of the callback outcomes
carried by `rest`. -/
theorem c6_watcher_fires_exactly_once (s : WatchState) (m : ℕ) (b : Bool)
    (rest : List (Option ℕ × Bool))
    (hpast : ∀ l, s.lastMtime = some l → l < m)
    (hrest : ∀ p ∈ rest, p.1 = none ∨ p.1 = some m) :
    (watchPoll s (some m) b).lastMtime = some m
    ∧ (watchPoll s (some m) b).fires = s.fires + 1
    ∧ watchRun (watchPoll s (some m) b) rest = watchPoll s (some m) b := by
  have htrig : (watchPoll s (some m) b).lastMtime = some m
      ∧ (watchPoll s (some m) b).fires = s.fires + 1 := by
    cases hl : s.lastMtime with
    | none => simp [watchPoll, hl]
    | some l =>
      have hlt : l < m := hpast l hl
      simp [watchPoll, hl, hlt]
  exact ⟨htrig.1, htrig.2, watchRun_stable _ m rest htrig.1 hrest⟩

/-- Witness for C6: a watcher that last observed mtime 100 sees mtime
101 with a throwing callback, then two more unchanged polls. -/
theorem c6_witness :
    (watchPoll { lastMtime := some 100, fires := 0, errorsLogged := 0 } (some 101) true).lastMtime = some 101
    ∧ (watchPoll { lastMtime := some 100, fires := 0, errorsLogged := 0 } (some 101) true).fires = 0 + 1
    ∧ watchRun (watchPoll { lastMtime := some 100, fires := 0, errorsLogged := 0 } (some 101) true)
        [(some 101, false), (none, true)]
      = watchPoll { lastMtime := some 100, fires := 0, errorsLogged := 0 } (some 101) true :=
  c6_watcher_fires_exactly_once
    { lastMtime := some 100, fires := 0, errorsLogged := 0 } 101 true
    [(some 101, false), (none, true)]
    (fun l hl => by
      injection hl with h
      omega)
    (by decide)

/-! Section: Claim C7 — behaviour before any successful load -/

/-- C7: with no model ever loaded, `HealthCheck` reports unhealthy with
status `model_not_loaded` and `model_loaded = false`, `Detect` returns
an `UNAVAILABLE` fault, and `get_model_info` returns the no-model
sentinel rather than an error. -/
theorem c7_not_loaded_responses (s : DetectorState) (cfg : ModelConfig)
    (uptime : ℕ) (infer : ℚ → ℚ → List RawBox) (w h rc ri : ℚ)
    (hm : s.model = none) :
    DetectionServicer.HealthCheck s uptime
      = { healthy := false, status := "model_not_loaded", model_loaded := false
          uptime_seconds := uptime }
    ∧ DetectionServicer.Detect s cfg infer w h rc ri
        = GrpcOutcome.fault StatusCode.unavailable "Model not loaded"
    ∧ Detector.get_model_info s cfg
        = { version := "none", architecture := "none", class_names := []
            input_size := cfg.input_size } := by
  refine ⟨?_, ?_, ?_⟩
  · simp [DetectionServicer.HealthCheck, Detector.model_loaded, hm]
  · simp [DetectionServicer.Detect, Detector.model_loaded, hm]
  · simp [Detector.get_model_info, hm]

/-- Witness for C7: the fresh detector state, standard config. -/
theorem c7_witness :
    DetectionServicer.HealthCheck initDetectorState 7
      = { healthy := false, status := "model_not_loaded", model_loaded := false
          uptime_seconds := 7 }
    ∧ DetectionServicer.Detect initDetectorState cfgStd c2infer 100 100 0 0
        = GrpcOutcome.fault StatusCode.unavailable "Model not loaded"
    ∧ Detector.get_model_info initDetectorState cfgStd
        = { version := "none", architecture := "none", class_names := []
            input_size := cfgStd.input_size } :=
  c7_not_loaded_responses initDetectorState cfgStd 7 c2infer 100 100 0 0 rfl

/-! Section: Claim C8 — threshold fallback -/

/-- C8: for a caller-supplied threshold value (proto3 encodes an absent
float field as 0), the composition of the servicer's strict-positivity
filter (servicer.py lines 46-47) with the engine's `or`-fallback
(detector.py lines 215-216) yields the configured default when the
value is absent or non-positive, and the caller's value as given
otherwise. -/
theorem c8_threshold_fallback (cfg : ModelConfig) (rc ri : ℚ) :
    Detector.chooseThresholds cfg (servicerThreshold rc) (servicerThreshold ri)
      = (if 0 < rc then rc else cfg.default_confidence,
         if 0 < ri then ri else cfg.default_iou) := by
  have e1 : pyOrQ (servicerThreshold rc) cfg.default_confidence
      = if 0 < rc then rc else cfg.default_confidence := by
    by_cases h : 0 < rc
    · simp [servicerThreshold, h, pyOrQ, ne_of_gt h]
    · simp [servicerThreshold, h, pyOrQ]
  have e2 : pyOrQ (servicerThreshold ri) cfg.default_iou
      = if 0 < ri then ri else cfg.default_iou := by
    by_cases h : 0 < ri
    · simp [servicerThreshold, h, pyOrQ, ne_of_gt h]
    · simp [servicerThreshold, h, pyOrQ]
  simp [Detector.chooseThresholds, e1, e2]

/-! Section: Claim C9 — SyncClasses is idempotent -/

/-- C9: calling `SyncClasses` twice in a row with the same request
leaves the same detector state (hence the same effective Class Mapping
Overlay) as calling it once, and both calls report the same success
flag and `class_count`. -/
theorem c9_sync_idempotent (s : DetectorState) (classes : List ClassEntry) :
    (DetectionServicer.SyncClasses
        (DetectionServicer.SyncClasses s classes).1 classes).1
      = (DetectionServicer.SyncClasses s classes).1
    ∧ (DetectionServicer.SyncClasses
        (DetectionServicer.SyncClasses s classes).1 classes).2
      = (DetectionServicer.SyncClasses s classes).2 :=
  ⟨rfl, rfl⟩

/-! Section: Claim C10 — duplicate class-ids in a SyncClasses request -/

/-- The request with two entries for the same class-id used to show the
reported count can be smaller than the request length. -/
def dupRequest : List ClassEntry :=
  [{ class_id := 0, sku_id := "sku-a", class_name := "A" },
   { class_id := 0, sku_id := "sku-b", class_name := "B" }]

/-- C10: in the mapping built by `SyncClasses`, the last request entry
for a class-id wins; the call reports success; the reported
`class_count` is the number of distinct class-ids in the request; and
on a request with two entries for one id the count is 1, strictly less
than the two entries submitted. -/
theorem c10_duplicate_last_wins_count (s : DetectorState)
    (classes : List ClassEntry) (k : ℕ) :
    dictGet (buildMapping classes) k = lastTripleValue classes k
    ∧ (DetectionServicer.SyncClasses s classes).2.1 = true
    ∧ (DetectionServicer.SyncClasses s classes).2.2
        = (classes.map (fun c => c.class_id)).toFinset.card
    ∧ (DetectionServicer.SyncClasses s dupRequest).2.2 = 1
    ∧ dupRequest.length = 2
    ∧ dictGet (buildMapping dupRequest) 0 = some ("sku-b", "B") := by
  refine ⟨?_, rfl, ?_, rfl, rfl, by decide⟩
  · rw [buildMapping, lastTripleValue, dictGet_syncFold]
    rfl
  · show (buildMapping classes).length = _
    exact length_buildMapping classes

/-! Section: Claim C5 — overlay-first resolution with fallback -/

/-- C5: every detection in a successful Detect response resolves its
display name via the detector's overlay-first lookup and its sku via
the servicer's overlay-first lookup; a class-id absent from the overlay
falls back to the model's intrinsic name and an empty sku, and a
class-id present in the overlay takes both values from it. -/
theorem c5_overlay_resolution (s : DetectorState) (cfg : ModelConfig)
    (model : YOLOModel) (infer : ℚ → ℚ → List RawBox) (w h rc ri : ℚ)
    (resp : DetectResponse) (d : WireDetection)
    (hm : s.model = some model)
    (hresp : DetectionServicer.Detect s cfg infer w h rc ri = GrpcOutcome.ok resp)
    (hd : d ∈ resp.detections) :
    d.class_name = resolveName s.classMapping model.names d.class_id
    ∧ d.sku_id = resolveSku s.classMapping d.class_id
    ∧ (dictGet s.classMapping d.class_id = none →
        d.class_name = namesGetD model.names d.class_id ∧ d.sku_id = "")
    ∧ (∀ sku nm, dictGet s.classMapping d.class_id = some (sku, nm) →
        d.class_name = nm ∧ d.sku_id = sku) := by
  simp only [DetectionServicer.Detect, Detector.model_loaded, hm, Option.isSome_some,
    Detector.detect] at hresp
  simp only [Bool.true_eq_false, if_false, GrpcOutcome.ok.injEq] at hresp
  rw [← hresp] at hd
  simp only [List.map_map, List.mem_map, Function.comp] at hd
  obtain ⟨b, hbmem, hb⟩ := hd
  subst hb
  refine ⟨rfl, rfl, ?_, ?_⟩
  · intro hnone
    have hnone' : dictGet s.classMapping b.cls = none := hnone
    constructor
    · show resolveName s.classMapping model.names b.cls = _
      simp [resolveName, hnone']
    · show resolveSku s.classMapping b.cls = ""
      simp [resolveSku, hnone']
  · intro sku nm hsome
    have hsome' : dictGet s.classMapping b.cls = some (sku, nm) := hsome
    constructor
    · show resolveName s.classMapping model.names b.cls = nm
      simp [resolveName, hsome']
    · show resolveSku s.classMapping b.cls = sku
      simp [resolveSku, hsome']

/-- Witness for C5: in the concrete scenario, the class-0 detection
(absent from the overlay) carries the intrinsic name `cola` and an
empty sku, while the class-1 detection (present in the overlay) carries
the overlay's `Overlay` / `sku-1`. -/
theorem c5_witness :
    (c5wire0.class_name = namesGetD c5model.names c5wire0.class_id
      ∧ c5wire0.sku_id = "")
    ∧ (c5wire1.class_name = "Overlay" ∧ c5wire1.sku_id = "sku-1") :=
  ⟨(c5_overlay_resolution c5state cfgStd c5model c5infer 1 1 0 0 c5resp c5wire0
      rfl (by simp [DetectionServicer.Detect, Detector.model_loaded, c5state,
        Detector.detect, Detector.chooseThresholds, servicerThreshold, pyOrQ,
        c5infer, cfgStd, resolveName, resolveSku, dictGet, namesGetD, c5resp,
        c5wire0, c5wire1, c5model])
      (List.mem_cons_self c5wire0 [c5wire1])).2.2.1 rfl,
   (c5_overlay_resolution c5state cfgStd c5model c5infer 1 1 0 0 c5resp c5wire1
      rfl (by simp [DetectionServicer.Detect, Detector.model_loaded, c5state,
        Detector.detect, Detector.chooseThresholds, servicerThreshold, pyOrQ,
        c5infer, cfgStd, resolveName, resolveSku, dictGet, namesGetD, c5resp,
        c5wire0, c5wire1, c5model])
      (List.mem_cons_of_mem c5wire0 (List.mem_cons_self c5wire1 []))).2.2.2
      "sku-1" "Overlay" rfl⟩

/-! Section: Claim C3 — failed reload and the engine state -/

/-- C3 (code bug): a reload whose version computation throws — the model
file vanishes between the warm-up and the `model_path.stat()` of
`_compute_version` — returns `false` as the claim requires, but does
NOT leave the engine state untouched: the new model reference is
already installed (detector.py line 148 runs before line 149) while the
version identifier keeps its prior value.  The missing-path,
deserialization-throw and warm-up-throw failures, by contrast, leave
the state exactly as it was. -/
theorem c3_version_throw_installs_model :
    (Detector.load_model envStatThrow c2s1).1 = false
    ∧ (Detector.load_model envStatThrow c2s1).2.model ≠ c2s1.model
    ∧ (Detector.load_model envStatThrow c2s1).2.model = some yoloPepsi
    ∧ (Detector.load_model envStatThrow c2s1).2.modelVersion = c2s1.modelVersion
    ∧ Detector.load_model envMissing c2s1 = (false, c2s1)
    ∧ Detector.load_model envYoloThrow c2s1 = (false, c2s1)
    ∧ Detector.load_model envWarmupThrow c2s1 = (false, c2s1) := by
  refine ⟨rfl, ?_, rfl, rfl, rfl, rfl, rfl⟩
  decide

/-! Section: Claim C2 — result version versus the handle used -/

/-- C2 (code bug): after a successful load installed `yoloCola` with
version `v100`, a reload of `yoloPepsi` whose version computation threw
leaves the engine using `yoloPepsi` while still reporting `v100` — so a
detect call returns a Detection Result whose version identifier is that
of a different, earlier Handle than the one actually used (its class-0
detection is named `pepsi`, proving `yoloPepsi` produced it). -/
theorem c2_stale_version_after_failed_reload :
    c2s1.model = some yoloCola
    ∧ c2s1.modelVersion = "v100"
    ∧ (Detector.load_model envStatThrow c2s1).1 = false
    ∧ c2s2.model = some yoloPepsi
    ∧ c2s2.modelVersion = "v100"
    ∧ (Detector.detect c2s2 cfgStd c2infer 100 100 none none).map
        (fun r => r.model_version) = some "v100"
    ∧ (Detector.detect c2s2 cfgStd c2infer 100 100 none none).map
        (fun r => r.detections.map (fun d => d.class_name)) = some ["pepsi"]
    ∧ yoloPepsi ≠ yoloCola := by
  refine ⟨rfl, rfl, rfl, rfl, rfl, rfl, rfl, ?_⟩
  decide

/-! Section: Helper lemmas about the lock model -/

/-- Every list is a suffix of itself. -/
theorem mem_listSuffixes_self {α : Type} (l : List α) : l ∈ listSuffixes l := by
  cases l with
  | nil => simp [listSuffixes]
  | cons a as => simp [listSuffixes]

/-- Suffixes of a tail are suffixes of the whole list. -/
theorem listSuffixes_subset {α : Type} (a : α) (l : List α) (p : List α)
    (hp : p ∈ listSuffixes l) : p ∈ listSuffixes (a :: l) := by
  simp [listSuffixes]
  exact Or.inr hp

/-- The tail of a suffix is again a suffix. -/
theorem tail_mem_listSuffixes {α : Type} (l : List α) (x : α) (rest : List α)
    (hp : (x :: rest) ∈ listSuffixes l) : rest ∈ listSuffixes l := by
  induction l with
  | nil => simp [listSuffixes] at hp
  | cons b bs ih =>
    simp only [listSuffixes, List.mem_cons] at hp
    rcases hp with hp | hp
    · have hrest : rest = bs := (List.cons.injEq x rest b bs).mp hp |>.2
      subst hrest
      exact listSuffixes_subset b rest rest (mem_listSuffixes_self rest)
    · exact listSuffixes_subset b bs rest (ih hp)

/-- Recorded shape facts about the suffixes of `detectProg`: after its
`acquire` a thread is inside the locked section, and after its
`release` it is not. -/
theorem detectProg_suffix_facts :
    (listSuffixes detectProg).all (fun p =>
      match p with
      | LInstr.acquire :: rest => holding rest
      | LInstr.release :: rest => !(holding rest)
      | _ => true) = true := by
  decide

/-- Initial configurations satisfy the two-detect invariant. -/
theorem DInv_twoDetectSys : DInv twoDetectSys := by
  refine ⟨mem_listSuffixes_self detectProg, mem_listSuffixes_self detectProg, ?_, ?_⟩
  · intro h
    simp [twoDetectSys, detectProg, holding] at h
  · intro h
    simp [twoDetectSys, detectProg, holding] at h

/-- One step of the lock system preserves the two-detect invariant. -/
theorem lstep_DInv (sys sys' : LockSys) (t : ℕ) (hinv : DInv sys)
    (hstep : lstep sys t = some sys') : DInv sys' := by
  obtain ⟨ow, p0, p1⟩ := sys
  obtain ⟨h0, h1, hh0, hh1⟩ := hinv
  have hfacts := detectProg_suffix_facts
  rw [List.all_eq_true] at hfacts
  by_cases ht0 : t = 0
  · subst ht0
    cases p0 with
    | nil => simp [lstep] at hstep
    | cons i rest =>
      have hrest : rest ∈ listSuffixes detectProg :=
        tail_mem_listSuffixes detectProg i rest h0
      have hshape := hfacts _ h0
      cases i with
      | acquire =>
        cases ow with
        | none =>
          simp only [lstep, if_pos rfl] at hstep
          cases hstep
          simp only [holding] at hshape
          refine ⟨hrest, h1, fun _ => rfl, fun hhold => ?_⟩
          have h10 := hh1 hhold
          cases h10
        | some u => simp [lstep] at hstep
      | release =>
        cases ow with
        | none => simp [lstep] at hstep
        | some u =>
          by_cases hu : u = 0
          · subst hu
            simp only [lstep, if_pos rfl] at hstep
            cases hstep
            simp only [Bool.not_eq_true'] at hshape
            refine ⟨hrest, h1, fun hhold => ?_, fun hhold => ?_⟩
            · rw [hshape] at hhold
              cases hhold
            · have h11 := hh1 hhold
              cases h11
          · have : ¬ (some u = some 0) := fun h => hu (Option.some.inj h)
            simp [lstep, this] at hstep
      | work tg =>
        simp only [lstep, if_pos rfl] at hstep
        cases hstep
        refine ⟨hrest, h1, fun hhold => ?_, hh1⟩
        apply hh0
        simpa [holding] using hhold
  · by_cases ht1 : t = 1
    · subst ht1
      cases p1 with
      | nil => simp [lstep, ht0] at hstep
      | cons i rest =>
        have hrest : rest ∈ listSuffixes detectProg :=
          tail_mem_listSuffixes detectProg i rest h1
        have hshape := hfacts _ h1
        cases i with
        | acquire =>
          cases ow with
          | none =>
            simp only [lstep, if_neg ht0, if_pos rfl] at hstep
            cases hstep
            simp only [holding] at hshape
            refine ⟨h0, hrest, fun hhold => ?_, fun _ => rfl⟩
            have h01 := hh0 hhold
            cases h01
          | some u => simp [lstep, ht0] at hstep
        | release =>
          cases ow with
          | none => simp [lstep, ht0] at hstep
          | some u =>
            by_cases hu : u = 1
            · subst hu
              simp only [lstep, if_neg ht0, if_pos rfl] at hstep
              cases hstep
              simp only [Bool.not_eq_true'] at hshape
              refine ⟨h0, hrest, fun hhold => ?_, fun hhold => ?_⟩
              · have h00 := hh0 hhold
                cases h00
              · rw [hshape] at hhold
                cases hhold
            · have : ¬ (some u = some 1) := fun h => hu (Option.some.inj h)
              simp [lstep, ht0, this] at hstep
        | work tg =>
          simp only [lstep, if_neg ht0, if_pos rfl] at hstep
          cases hstep
          refine ⟨h0, hrest, hh0, fun hhold => ?_⟩
          apply hh1
          simpa [holding] using hhold
    · simp [lstep, ht0, ht1] at hstep

/-- A whole run preserves the two-detect invariant. -/
theorem lrun_DInv (sched : List ℕ) :
    ∀ sys sys', DInv sys → lrun sys sched = some sys' → DInv sys' := by
  induction sched with
  | nil =>
    intro sys sys' h hr
    rw [lrun] at hr
    cases hr
    exact h
  | cons t ts ih =>
    intro sys sys' h hr
    rw [lrun] at hr
    cases hs : lstep sys t with
    | none => rw [hs] at hr; cases hr
    | some sys1 =>
      rw [hs] at hr
      exact ih sys1 sys' (lstep_DInv sys sys1 t h hs) hr

/-! Section: Claim C1 — what the engine lock actually serializes -/

/-- C1 counterexample: readers do NOT run fully concurrently.  With two
concurrent `detect` calls, every schedule that lets the second thread
take its first step while the first is anywhere inside its body — right
after the acquire, after the decode, after the inference, or after the
name resolution — blocks (the run is inadmissible), and the second
thread's first step becomes possible only after the first thread has
executed its entire body and released `_model_lock`. -/
theorem c1_counterexample_detect_blocks_detect :
    lrun twoDetectSys [0, 1] = none
    ∧ lrun twoDetectSys [0, 0, 1] = none
    ∧ lrun twoDetectSys [0, 0, 0, 1] = none
    ∧ lrun twoDetectSys [0, 0, 0, 0, 1] = none
    ∧ lrun twoDetectSys [0, 0, 0, 0, 0, 1] = none
    ∧ (lrun twoDetectSys [0, 0, 0, 0, 0, 0, 1]).isSome = true :=
  ⟨rfl, rfl, rfl, rfl, rfl, rfl⟩

/-- C1 as amended: two concurrent `detect` calls are mutually exclusive
— in every admissible schedule the reached configuration never has both
threads inside their locked sections, because `detect` holds
`_model_lock` for its whole body — while a reload's deserialization and
warm-up steps run without the lock and interleave freely with an
in-flight `detect`, only its install step contending for the lock. -/
theorem c1_detects_serialized_reload_build_concurrent :
    (∀ (sched : List ℕ) (sys' : LockSys), lrun twoDetectSys sched = some sys' →
        ¬ (holding sys'.th0 = true ∧ holding sys'.th1 = true))
    ∧ lrun detectReloadSys buildOverlapSched
        = some { owner := none, th0 := [], th1 := [] } := by
  constructor
  · intro sched sys' hr hcontra
    obtain ⟨ha, hb⟩ := hcontra
    obtain ⟨_, _, i0, i1⟩ := lrun_DInv sched twoDetectSys sys' DInv_twoDetectSys hr
    have e0 := i0 ha
    have e1 := i1 hb
    rw [e0] at e1
    exact absurd (Option.some.inj e1) (by decide)
  · rfl

/-- Witness for C1: the mutual-exclusion statement applied to the
concrete schedule in which thread 0 has just acquired the lock. -/
theorem c1_witness :
    ¬ (holding twoDetectAfter0.th0 = true ∧ holding twoDetectAfter0.th1 = true) :=
  c1_detects_serialized_reload_build_concurrent.1 [0] twoDetectAfter0 rfl

/-! Section: Helper lemmas about the overlay model -/

/-- One step by a thread that never replaces the overlay keeps the
overlay, the model table, and the consistency of all logged
resolutions. -/
theorem mstep_consistent (sys sys' : MapSys) (t : ℕ)
    (h0 : noSet sys.th0 = true) (h1 : noSet sys.th1 = true)
    (hc : logsConsistent sys.sh) (hs : mstep sys t = some sys') :
    sys'.sh.mapping = sys.sh.mapping ∧ sys'.sh.model = sys.sh.model
    ∧ logsConsistent sys'.sh
    ∧ noSet sys'.th0 = true ∧ noSet sys'.th1 = true := by
  obtain ⟨sh, p0, p1⟩ := sys
  by_cases ht0 : t = 0
  · subst ht0
    cases p0 with
    | nil => simp [mstep] at hs
    | cons i rest =>
      simp only [mstep, if_pos rfl] at hs
      cases hs
      simp only [noSet, List.all_cons, Bool.and_eq_true] at h0
      obtain ⟨hi, hrest⟩ := h0
      cases i with
      | readName cid =>
        refine ⟨rfl, rfl, ⟨?_, ?_⟩, hrest, h1⟩
        · intro e he
          simp only [mexec] at he
          rw [List.mem_append] at he
          rcases he with he | he
          · exact hc.1 e he
          · rw [List.mem_singleton] at he
            subst he
            rfl
        · exact hc.2
      | readSku cid =>
        refine ⟨rfl, rfl, ⟨?_, ?_⟩, hrest, h1⟩
        · exact hc.1
        · intro e he
          simp only [mexec] at he
          rw [List.mem_append] at he
          rcases he with he | he
          · exact hc.2 e he
          · rw [List.mem_singleton] at he
            subst he
            rfl
      | setMapping d => cases hi
  · by_cases ht1 : t = 1
    · subst ht1
      cases p1 with
      | nil => simp [mstep, ht0] at hs
      | cons i rest =>
        simp only [mstep, if_neg ht0, if_pos rfl] at hs
        cases hs
        simp only [noSet, List.all_cons, Bool.and_eq_true] at h1
        obtain ⟨hi, hrest⟩ := h1
        cases i with
        | readName cid =>
          refine ⟨rfl, rfl, ⟨?_, ?_⟩, h0, hrest⟩
          · intro e he
            simp only [mexec] at he
            rw [List.mem_append] at he
            rcases he with he | he
            · exact hc.1 e he
            · rw [List.mem_singleton] at he
              subst he
              rfl
          · exact hc.2
        | readSku cid =>
          refine ⟨rfl, rfl, ⟨?_, ?_⟩, h0, hrest⟩
          · exact hc.1
          · intro e he
            simp only [mexec] at he
            rw [List.mem_append] at he
            rcases he with he | he
            · exact hc.2 e he
            · rw [List.mem_singleton] at he
              subst he
              rfl
        | setMapping d => cases hi
    · simp [mstep, ht0, ht1] at hs

/-! Section: Claim C4 — overlay snapshot per response -/

/-- C4 counterexample: a Detect RPC that resolves its single detection's
display name (detector.py lines 254-258), then suffers a concurrent
`update_class_mapping`, then resolves the detection's sku
(servicer.py lines 58-61), produces a response whose display name comes
from the old overlay and whose sku comes from the new one — and neither
of the two overlay values that ever existed during the run explains
both resolved values, so the response is not a single consistent
snapshot of the mapping. -/
theorem c4_counterexample_mixed_snapshot :
    mrun c4sys [0, 1, 0]
      = some { sh := { mapping := c4new, model := c4model
                       nameLog := [(0, "Old")], skuLog := [(0, "sku-new")] }
               th0 := [], th1 := [] }
    ∧ ¬ (resolveName c4old c4model 0 = "Old" ∧ resolveSku c4old 0 = "sku-new")
    ∧ ¬ (resolveName c4new c4model 0 = "Old" ∧ resolveSku c4new 0 = "sku-new") := by
  refine ⟨rfl, ?_, ?_⟩
  · intro h
    exact absurd h.2 (by decide)
  · intro h
    exact absurd h.1 (by decide)

/-- C4 as amended: each individual overlay read does see a wholesale
value, but one response only resolves all its names and skus from the
same overlay value when no `update_class_mapping` runs concurrently:
for every system whose threads perform no overlay replacement, every
admissible schedule preserves the overlay and keeps every logged
resolution consistent with it. -/
theorem c4_single_snapshot_without_update (sched : List ℕ) :
    ∀ (sys sys' : MapSys), noSet sys.th0 = true → noSet sys.th1 = true →
      logsConsistent sys.sh → mrun sys sched = some sys' →
      sys'.sh.mapping = sys.sh.mapping ∧ logsConsistent sys'.sh := by
  induction sched with
  | nil =>
    intro sys sys' _ _ hc hr
    rw [mrun] at hr
    cases hr
    exact ⟨rfl, hc⟩
  | cons t ts ih =>
    intro sys sys' h0 h1 hc hr
    rw [mrun] at hr
    cases hs : mstep sys t with
    | none => rw [hs] at hr; cases hr
    | some sys1 =>
      rw [hs] at hr
      obtain ⟨hmap, _, hc1, h01, h11⟩ := mstep_consistent sys sys1 t h0 h1 hc hs
      obtain ⟨hmap', hc'⟩ := ih sys1 sys' h01 h11 hc1 hr
      exact ⟨hmap'.trans hmap, hc'⟩

/-- Witness for C4: the same Detect RPC with no concurrent update
resolves both the name and the sku from the initial overlay. -/
theorem c4_witness :
    c4wFinal.sh.mapping = c4wSys.sh.mapping ∧ logsConsistent c4wFinal.sh :=
  c4_single_snapshot_without_update [0, 0] c4wSys c4wFinal rfl rfl
    ⟨fun e he => absurd he (List.not_mem_nil e), fun e he => absurd he (List.not_mem_nil e)⟩
    rfl
